import Mathlib

/-!
Verification of the go-mcp RPC core (huangyul/go-mcp) against its
natural-language specification.  The Go sources are shallowly embedded:
pure logic becomes Lean functions, stateful handlers become explicit
state-passing functions, JSON values become an inductive AST, machine
integers become `Int` with explicit 64-bit range checks where the Go
code can fail on overflow, and fallible operations return `Option` or
`Except`.
-/

/-- A JSON value.  Numbers are restricted to integers, which is the only
numeric shape the embedded code paths distinguish (Go decodes the `id`
field with `json.Unmarshal` into an `int`). -/
inductive Json where
  | null
  | bool (b : Bool)
  | num (n : Int)
  | str (s : String)
  | arr (elems : List Json)
  | obj (fields : List (String × Json))

/-- First-match lookup in an association list, the model of reading a Go
map (whose keys are unique). -/
def lookupKey {α β : Type} [DecidableEq α] (k : α) : List (α × β) → Option β
  | [] => Option.none
  | (k', v) :: rest => if k' = k then some v else lookupKey k rest

/-- Removal of a key from an association list, the model of `delete` on a
Go map. -/
def removeKey {α β : Type} [DecidableEq α] (k : α) : List (α × β) → List (α × β)
  | [] => []
  | (k', v) :: rest =>
      if k' = k then removeKey k rest else (k', v) :: removeKey k rest

/-- Field lookup in a JSON object where the last duplicate wins, matching
`encoding/json`, which lets later occurrences of a key overwrite earlier
ones. -/
def objGetLast (fields : List (String × Json)) (k : String) : Option Json :=
  match fields with
  | [] => Option.none
  | (k', v) :: rest =>
      match objGetLast rest k with
      | some w => some w
      | Option.none => if k' = k then some v else Option.none

namespace Client

/-- `client/types.go`: `RequestID any` after `UnmarshalJSON` holds `nil`,
an `int`, or a `string`. -/
inductive RequestID where
  | none
  | int (i : Int)
  | str (s : String)
deriving DecidableEq

/-- Go `int` is 64-bit on the targeted platforms; `json.Unmarshal` into
`int` fails when the number does not fit. -/
def fitsInt64 (n : Int) : Bool :=
  decide (-(2 ^ 63) ≤ n) && decide (n < 2 ^ 63)

/-- `json.Unmarshal(raw, &i)` for `var i int`: succeeds on an in-range
integer number; JSON `null` is a no-op that leaves the zero value. -/
def goUnmarshalInt64 : Json → Option Int
  | Json.null => some 0
  | Json.num n => if fitsInt64 n then some n else Option.none
  | _ => Option.none

/-- `json.Unmarshal(raw, &s)` for `var s string`: succeeds on a JSON
string; JSON `null` is a no-op that leaves the empty string. -/
def goUnmarshalStringOpt : Json → Option String
  | Json.null => some ""
  | Json.str s => some s
  | _ => Option.none

/-- `client/types.go` `JSONRPCMessage.UnmarshalJSON`, id part: when the
raw `id` field is absent the identifier stays `nil`; otherwise integer
interpretation is attempted first, then string, and if both fail the
decode errors. -/
def unmarshalID : Option Json → Except String RequestID
  | Option.none => Except.ok RequestID.none
  | some raw =>
      match goUnmarshalInt64 raw with
      | some i => Except.ok (RequestID.int i)
      | Option.none =>
          match goUnmarshalStringOpt raw with
          | some s => Except.ok (RequestID.str s)
          | Option.none => Except.error "id must be an integer or string"

/-- `client/types.go` `JSONRPCError`. -/
structure JSONRPCError where
  code : Int
  message : String
  data : Option Json

/-- `client/types.go` `JSONRPCMessage` after decoding: `ID` is the
tagged identifier, `Params`/`Result` are opaque payloads (`nil` modelled
as `Option.none`), `Error` an optional error object. -/
structure JSONRPCMessage where
  jsonrpc : String
  id : RequestID
  method : String
  params : Option Json
  result : Option Json
  error : Option JSONRPCError

/-- Encoding of the `id` field under its `omitempty` tag. -/
def idFields : RequestID → List (String × Json)
  | RequestID.none => []
  | RequestID.int i => [("id", Json.num i)]
  | RequestID.str s => [("id", Json.str s)]

/-- Encoding of an `omitempty`-tagged `any` field. -/
def optField (name : String) : Option Json → List (String × Json)
  | Option.none => []
  | some v => [(name, v)]

/-- Encoding of the `method` field under `omitempty` (empty string
omitted). -/
def methodFields (m : String) : List (String × Json) :=
  if m = "" then [] else [("method", Json.str m)]

/-- Encoding of `JSONRPCError` (its `data` field is `omitempty`). -/
def marshalJSONRPCError (e : JSONRPCError) : Json :=
  Json.obj ([("code", Json.num e.code), ("message", Json.str e.message)] ++
    optField "data" e.data)

/-- Encoding of the `error` field (`*JSONRPCError`, `omitempty`). -/
def errorFields : Option JSONRPCError → List (String × Json)
  | Option.none => []
  | some e => [("error", marshalJSONRPCError e)]

/-- `client/types.go` `JSONRPCMessage.MarshalJSON`: plain struct
encoding honoring the field tags (`jsonrpc` always present, every other
field `omitempty`). -/
def marshalFields (m : JSONRPCMessage) : List (String × Json) :=
  [("jsonrpc", Json.str m.jsonrpc)] ++ idFields m.id ++
    methodFields m.method ++ optField "params" m.params ++
    optField "result" m.result ++ errorFields m.error

/-- The full marshalled envelope. -/
def marshalMessage (m : JSONRPCMessage) : Json :=
  Json.obj (marshalFields m)

/-- Decoding a `string`-typed struct field: absent or `null` leaves the
zero value, a string succeeds, anything else is a type error. -/
def goUnmarshalStringField : Option Json → Except String String
  | Option.none => Except.ok ""
  | some Json.null => Except.ok ""
  | some (Json.str s) => Except.ok s
  | some _ => Except.error "cannot unmarshal into Go string"

/-- Decoding an `any`-typed struct field: absent or `null` gives the nil
interface, anything else is kept verbatim. -/
def goUnmarshalAnyField : Option Json → Option Json
  | Option.none => Option.none
  | some Json.null => Option.none
  | some j => some j

/-- Decoding an `int`-typed struct field. -/
def goUnmarshalIntField : Option Json → Except String Int
  | Option.none => Except.ok 0
  | some Json.null => Except.ok 0
  | some (Json.num n) =>
      if fitsInt64 n then Except.ok n
      else Except.error "number overflows Go int"
  | some _ => Except.error "cannot unmarshal into Go int"

/-- Decoding the `error` field into `*JSONRPCError`: `null` gives a nil
pointer, an object decodes fieldwise, anything else is a type error. -/
def unmarshalErrorField : Json → Except String (Option JSONRPCError)
  | Json.null => Except.ok Option.none
  | Json.obj fields => do
      let code ← goUnmarshalIntField (objGetLast fields "code")
      let message ← goUnmarshalStringField (objGetLast fields "message")
      Except.ok (some { code := code, message := message,
                        data := goUnmarshalAnyField (objGetLast fields "data") })
  | _ => Except.error "cannot unmarshal into JSONRPCError"

/-- `client/types.go` `JSONRPCMessage.UnmarshalJSON`: the outer decode
fills every plain field and captures the raw `id`; the identifier is
then decoded int-first, string-second. -/
def unmarshalMessage : Json → Except String JSONRPCMessage
  | Json.obj fields => do
      let jsonrpc ← goUnmarshalStringField (objGetLast fields "jsonrpc")
      let method ← goUnmarshalStringField (objGetLast fields "method")
      let params := goUnmarshalAnyField (objGetLast fields "params")
      let result := goUnmarshalAnyField (objGetLast fields "result")
      let error ←
        match objGetLast fields "error" with
        | Option.none => Except.ok Option.none
        | some v => unmarshalErrorField v
      let id ← unmarshalID (objGetLast fields "id")
      Except.ok { jsonrpc := jsonrpc, id := id, method := method,
                  params := params, result := result, error := error }
  | _ => Except.error "cannot unmarshal into JSONRPCMessage"

/-- A raw `id` value on which the int-then-string decode succeeds. -/
def idDecodable : Json → Bool
  | Json.null => true
  | Json.num n => fitsInt64 n
  | Json.str _ => true
  | _ => false

/-- Well-formedness capturing Go's static typing: every `int`-typed
component actually fits in 64 bits. -/
def messageWF (m : JSONRPCMessage) : Prop :=
  (∀ i, m.id = RequestID.int i → fitsInt64 i = true) ∧
  (∀ e, m.error = some e → fitsInt64 e.code = true)

/-- The anonymous response struct both client readers decode a wire line
into: `ID int64`, `Result json.RawMessage`, optional error object
(`Code int`, `Message string`). -/
structure WireResponse where
  id : Int
  result : Json
  error : Option (Int × String)

/-- The payload a reader sends on the pending call's channel: `nil` (a
failure signal) when the response carries an error object, otherwise a
pointer to the raw result. -/
def responsePayload (r : WireResponse) : Option Json :=
  match r.error with
  | some _ => Option.none
  | Option.none => some r.result

/-- `client/stdio.go` `StdioMCPClient.readResponses`, one loop
iteration after reading a line: an unparsable line is skipped
(`continue`); otherwise the pending-call table is consulted for the
response's id, and when an entry exists its channel receives the payload
and the entry is deleted.  The second component lists the channel sends
performed (channel identifier, payload). -/
def readResponsesStep (tbl : List (Int × Nat)) (parsed : Option WireResponse) :
    List (Int × Nat) × List (Nat × Option Json) :=
  match parsed with
  | Option.none => (tbl, [])
  | some r =>
      match lookupKey r.id tbl with
      | Option.none => (tbl, [])
      | some ch => (removeKey r.id tbl, [(ch, responsePayload r)])

/-- `client/stdio.go` `StdioMCPClient` mutable state relevant to request
issuance: handshake flag, monotone request counter, pending-call table
mapping request id to completion channel. -/
structure StdioClientState where
  initialized : Bool
  requestID : Int
  response : List (Int × Nat)
deriving DecidableEq

/-- Observable effects of one `sendRequest` call up to the point where
the caller starts waiting for the reply. -/
structure SendRequestTrace where
  error : Option String
  idAllocated : Bool
  entryCreated : Bool
  wroteBytes : Bool
deriving DecidableEq

/-- `client/stdio.go` `StdioMCPClient.sendRequest`, the part before
waiting on the completion channel: before initialization every method
except `initialize` fails locally with `not initialized` and has no
effect; otherwise an id is allocated, the completion channel `ch` is
registered under it, and the request line is written to stdin. -/
def stdioSendRequestStart (c : StdioClientState) (ch : Nat) (method : String) :
    StdioClientState × SendRequestTrace :=
  if !c.initialized && method ≠ "initialize" then
    (c, { error := some "not initialized", idAllocated := false,
          entryCreated := false, wroteBytes := false })
  else
    let id := c.requestID + 1
    ({ c with requestID := id, response := (id, ch) :: removeKey id c.response },
     { error := Option.none, idAllocated := true, entryCreated := true,
       wroteBytes := true })

/-- `src/unnamed/part_002` `StdioMCPClient.sendRequest`, same shape, but
its guard compares the method name against the string `initialized`
instead of `initialize`, and its local error reads
`client not initialized`. -/
def part002SendRequestStart (c : StdioClientState) (ch : Nat) (method : String) :
    StdioClientState × SendRequestTrace :=
  if !c.initialized && method ≠ "initialized" then
    (c, { error := some "client not initialized", idAllocated := false,
          entryCreated := false, wroteBytes := false })
  else
    let id := c.requestID + 1
    ({ c with requestID := id, response := (id, ch) :: removeKey id c.response },
     { error := Option.none, idAllocated := true, entryCreated := true,
       wroteBytes := true })

/-- `client/stdio.go` `sendRequest`, the `ctx.Done()` arm of the final
select: the pending entry is deleted and the context's error is
returned. -/
def stdioCancelPending (c : StdioClientState) (id : Int) :
    StdioClientState × String :=
  ({ c with response := removeKey id c.response }, "context canceled")

/-- A parsed URL, reduced to the parts the SSE client inspects: the host
and the remainder of the URL text. -/
structure URL where
  host : String
  rest : String
deriving DecidableEq

/-- `client/sse.go` `SSEMCPClient` mutable state: connection origin
host, negotiated POST endpoint (nil until an accepted `endpoint`
event), handshake flag, request counter, pending-call table. -/
structure SSEClientState where
  baseHost : String
  endpoint : Option URL
  initialized : Bool
  requestID : Int
  responses : List (Int × Nat)
deriving DecidableEq

/-- An SSE event as seen by `HandleSSEEvent`, with the library parses it
performs on the data already applied: `url.Parse` for `endpoint` events,
`json.Unmarshal` for `message` events (`Option.none` for a failed
parse). -/
inductive ClientEvent where
  | endpoint (parsed : Option URL)
  | message (parsed : Option WireResponse)
  | other (ty : String)

/-- `client/sse.go` `SSEMCPClient.HandleSSEEvent`: an `endpoint` event
stores the parsed URL only when parsing succeeded and its host equals
the connection origin; a `message` event completes and removes the
matching pending call exactly as the stdio reader does; any other event
type is ignored.  The second component lists the channel sends
performed. -/
def handleSSEEvent (c : SSEClientState) :
    ClientEvent → SSEClientState × List (Nat × Option Json)
  | ClientEvent.endpoint parsed =>
      match parsed with
      | Option.none => (c, [])
      | some u =>
          if u.host ≠ c.baseHost then (c, [])
          else ({ c with endpoint := some u }, [])
  | ClientEvent.message parsed =>
      match parsed with
      | Option.none => (c, [])
      | some r =>
          match lookupKey r.id c.responses with
          | Option.none => (c, [])
          | some ch =>
              ({ c with responses := removeKey r.id c.responses },
               [(ch, responsePayload r)])
  | ClientEvent.other _ => (c, [])

/-- A freshly constructed `SSEMCPClient` (`NewSSEMCPClient`): no
endpoint, not initialized, empty pending table. -/
def initialSSEClient (baseHost : String) : SSEClientState :=
  { baseHost := baseHost, endpoint := Option.none, initialized := false,
    requestID := 0, responses := [] }

/-- Repeated application of `HandleSSEEvent` over a stream of events. -/
def runEvents (c : SSEClientState) : List ClientEvent → SSEClientState
  | [] => c
  | e :: es => runEvents (handleSSEEvent c e).1 es

/-- Outcome of the front part of `client/sse.go` `sendRequest`: either a
local error returned before anything is POSTed, or the state after
registering the pending entry, about to POST under the allocated id. -/
inductive SSESendOutcome where
  | localError (msg : String)
  | posted (c : SSEClientState) (id : Int)
deriving DecidableEq

/-- `client/sse.go` `SSEMCPClient.sendRequest`, the part before the
POST: the initialization guard runs first (every method except
`initialize` fails with `client not initialized` before the handshake),
then a nil endpoint fails with `endpoint not received`; otherwise an id
is allocated and the completion channel registered. -/
def sseSendRequestStart (c : SSEClientState) (ch : Nat) (method : String) :
    SSESendOutcome :=
  if !c.initialized && method ≠ "initialize" then
    SSESendOutcome.localError "client not initialized"
  else
    match c.endpoint with
    | Option.none => SSESendOutcome.localError "endpoint not received"
    | some _ =>
        let id := c.requestID + 1
        SSESendOutcome.posted
          { c with requestID := id, responses := (id, ch) :: removeKey id c.responses }
          id

/-- `client/sse.go` `sendRequest`, the `ctx.Done()` arm of the final
select: the pending entry is deleted under the lock and the context's
error is returned. -/
def sseCancelPending (c : SSEClientState) (id : Int) :
    SSEClientState × String :=
  ({ c with responses := removeKey id c.responses }, "context canceled")

/-- The endpoint-origin invariant of the SSE client. -/
def endpointInv (c : SSEClientState) : Prop :=
  ∀ u, c.endpoint = some u → u.host = c.baseHost

end Client

namespace Server

/-- `server/stdio.go` `JSONRPCRequest` after decoding: `ID any` is nil
or an arbitrary JSON value, `Params json.RawMessage` likewise. -/
structure Request where
  jsonrpc : String
  id : Option Json
  method : String
  params : Option Json

/-- `server/stdio.go` `JSONRPCError` (code and message). -/
structure RPCError where
  code : Int
  message : String

/-- `server/stdio.go` `JSONRPCResponse`: `ID any` with no `omitempty`
(so a nil id is emitted as JSON `null`), `Result any` and
`Error *JSONRPCError` both `omitempty`. -/
structure Response where
  jsonrpc : String
  id : Option Json
  result : Option Json
  error : Option RPCError

/-- `server/stdio.go` `writeError`: a `2.0` response with the given id,
code and message and no result. -/
def errorResponse (id : Option Json) (code : Int) (message : String) : Response :=
  { jsonrpc := "2.0", id := id, result := Option.none,
    error := some { code := code, message := message } }

/-- `json.Marshal` of `JSONRPCResponse` under its field tags: `jsonrpc`
and `id` always present (nil id as `null`), `result` and `error`
omitted when empty. -/
def marshalResponse (r : Response) : Json :=
  Json.obj
    ([("jsonrpc", Json.str r.jsonrpc), ("id", r.id.getD Json.null)] ++
      (match r.result with
       | Option.none => []
       | some v => [("result", v)]) ++
      (match r.error with
       | Option.none => []
       | some e =>
           [("error", Json.obj [("code", Json.num e.code),
                                ("message", Json.str e.message)])]))

/-- `server/stdio.go` `StdioServer.handleMessage`: a line that fails to
unmarshal gets a `-32700` `Parse error` response with nil id; a parsed
request whose protocol tag is not `2.0` gets `-32600`; a dispatcher
error gets `-32603` carrying the error text; otherwise a success
response echoes the request's id with the dispatcher's result and no
error field.  The first component is the response written to standard
output; the second is the error value `handleMessage` returns to the
serve loop (logged there, not written to the wire). -/
def handleMessage (parsed : Except String Request)
    (dispatch : String → Option Json → Except String (Option Json)) :
    Response × Option String :=
  match parsed with
  | Except.error e =>
      (errorResponse Option.none (-32700) "Parse error",
       some ("failed to parse JSON-RPC request: " ++ e))
  | Except.ok req =>
      if req.jsonrpc ≠ "2.0" then
        (errorResponse Option.none (-32600) "Invalid version",
         some "invalid JSON-RPC version")
      else
        match dispatch req.method req.params with
        | Except.error e =>
            (errorResponse Option.none (-32603) e,
             some ("request handling error: " ++ e))
        | Except.ok result =>
            ({ jsonrpc := "2.0", id := req.id, result := result,
               error := Option.none }, Option.none)

/-- `server/sse.go` `sseSession`, reduced to its observable state: the
frames written to its event stream (event name paired with the response
written as its data) and whether its liveness channel has been
closed. -/
structure Session where
  frames : List (String × Response)
  doneClosed : Bool

/-- Observable outcome of one `handleMessage` POST on the SSE server:
the session registry afterwards, the HTTP status code written, the JSON
body written (as the response it encodes), and whether the dispatcher
was invoked. -/
structure PostResult where
  sessions : List (String × Session)
  status : Nat
  body : Option Response
  dispatched : Bool

/-- Writing an `event: message` frame for `response` onto the session
registered under `sid` (`fmt.Fprintf(session.writer, ...)` followed by
`Flush`). -/
def storeFrame (sessions : List (String × Session)) (sid : String)
    (response : Response) : List (String × Session) :=
  match sessions with
  | [] => []
  | (k, sess) :: rest =>
      (if k = sid then
        (k, { sess with frames := sess.frames ++ [("message", response)] })
       else (k, sess)) :: storeFrame rest sid response

/-- `server/sse.go` `SSEServer.handleMessage`: non-POST methods get a
`-32600` error; an empty `sessionId` query parameter gets `-32602`
`Missing sessionId`; an unregistered session id gets `-32602`
`Invalid session ID`; an unparsable body gets `-32700`; otherwise the
dispatcher's response is written to the owning session's stream as an
`event: message` frame and also encoded as the HTTP body under status
`202 Accepted`.  Error responses are written with status `400`
(`writeJSONRPCError` uses `http.StatusBadRequest`).  The query getter
returns the empty string when the parameter is missing, so
`sessionId = ""` models a missing parameter. -/
def handleMessagePost (sessions : List (String × Session)) (method : String)
    (sessionId : String) (body : Except String Request)
    (dispatch : Request → Response) : PostResult :=
  if method ≠ "POST" then
    { sessions := sessions, status := 400,
      body := some (errorResponse Option.none (-32600) "Method not allowed"),
      dispatched := false }
  else if sessionId = "" then
    { sessions := sessions, status := 400,
      body := some (errorResponse Option.none (-32602) "Missing sessionId"),
      dispatched := false }
  else
    match lookupKey sessionId sessions with
    | Option.none =>
        { sessions := sessions, status := 400,
          body := some (errorResponse Option.none (-32602) "Invalid session ID"),
          dispatched := false }
    | some _ =>
        match body with
        | Except.error _ =>
            { sessions := sessions, status := 400,
              body := some (errorResponse Option.none (-32700) "Parse error"),
              dispatched := false }
        | Except.ok req =>
            let response := dispatch req
            { sessions := storeFrame sessions sessionId response, status := 202,
              body := some response, dispatched := true }

end Server

namespace SSEScan

/-- `src/unnamed/part_004` `SSEEvent`: an event type and its
accumulated data. -/
structure SSEEvent where
  type : String
  data : String
deriving DecidableEq

/-- The empty accumulator `SSEEvent{}` each `Scan` call starts from. -/
def emptyEvent : SSEEvent := { type := "", data := "" }

/-- Appending one `data` value per the scanner's rule: a newline joins
it to non-empty existing data. -/
def appendData (d v : String) : String :=
  if d = "" then v else d ++ "\n" ++ v

/-- `strings.HasPrefix`, computed on the character sequence (the inputs
handled by the scanner are plain text lines, where byte and character
prefixes coincide). -/
def strStarts (s pre : String) : Bool :=
  pre.data.isPrefixOf s.data

/-- `line[n:]`, computed on the character sequence. -/
def strDrop (s : String) (n : Nat) : String :=
  ⟨s.data.drop n⟩

/-- A whitespace character as `strings.TrimSpace` sees ASCII input. -/
def isSpaceChar (c : Char) : Bool :=
  c = ' ' || c = '\t' || c = '\n' || c = '\r'

/-- `strings.TrimSpace`: leading and trailing whitespace removed. -/
def strTrim (s : String) : String :=
  ⟨((s.data.dropWhile isSpaceChar).reverse.dropWhile isSpaceChar).reverse⟩

/-- `strings.Contains(line, ":")` for the single-character separator. -/
def containsColon (s : String) : Bool :=
  s.data.contains ':'

/-- `strings.SplitN(line, ":", 2)`: the text before the first colon and
everything after it (the scanner only consults it when a colon is
present). -/
def splitN2 (line : String) : String × String :=
  (⟨line.data.takeWhile (fun c => !(c = ':'))⟩,
   ⟨(line.data.dropWhile (fun c => !(c = ':'))).drop 1⟩)

/-- `src/unnamed/part_004` `EventScanner.Scan`, iterated over the whole
input: each emitted event restarts the accumulator (`s.current =
SSEEvent{}`) with the seen-a-line flag (`inEvent`) cleared.  A blank
line emits the current event only when the flag is set; an `event:`
line overwrites the type; a `data:` line appends to the data; a line
beginning `:` contributes no field; any other line containing a colon
is split at the first colon and its trimmed field name is given the
same event/data treatment; every non-blank line, comments included,
sets the flag.  End of input emits the accumulator when the flag is
set. -/
def scanEvents : List String → SSEEvent → Bool → List SSEEvent
  | [], cur, inEvent => if inEvent then [cur] else []
  | line :: rest, cur, inEvent =>
      if line = "" then
        if inEvent then cur :: scanEvents rest emptyEvent false
        else scanEvents rest cur false
      else
        if strStarts line "event:" then
          scanEvents rest { cur with type := strTrim (strDrop line 6) } true
        else if strStarts line "data:" then
          scanEvents rest
            { cur with data := appendData cur.data (strTrim (strDrop line 5)) } true
        else if strStarts line ":" then
          scanEvents rest cur true
        else
          if containsColon line then
            let field := strTrim (splitN2 line).1
            let value := strTrim (splitN2 line).2
            if field = "event" then scanEvents rest { cur with type := value } true
            else if field = "data" then
              scanEvents rest { cur with data := appendData cur.data value } true
            else scanEvents rest cur true
          else scanEvents rest cur true

/-- The event list produced from a fresh scanner on the given lines. -/
def scanAll (lines : List String) : List SSEEvent :=
  scanEvents lines emptyEvent false

end SSEScan

namespace Transport

/-- Errors `exec.Cmd.Wait` can deliver on the `processExit` channel:
`os.ErrProcessDone` (treated as a clean exit by `Disconnect`) or any
other error text. -/
inductive GoErr where
  | processDone
  | other (msg : String)
deriving DecidableEq

/-- What happens at `Disconnect`'s grace-window select: either the
process-exit signal arrives within the 5-second window carrying
`cmd.Wait`'s error value, or the window elapses and the kill attempt
succeeds or fails. -/
inductive ExitSignal where
  | exited (err : Option GoErr)
  | timeout (killOk : Bool)
deriving DecidableEq

/-- `StdioTransport` state relevant to the shutdown path: whether the
transport is connected, whether stdin has been closed, whether the
process was forcibly killed, and which background tasks `Connect`
launched. -/
structure TransportState where
  connected : Bool
  stdinClosed : Bool
  processKilled : Bool
  exitWaiterStarted : Bool
  drainStarted : Bool
deriving DecidableEq

/-- A transport as built by `NewStdioTransport`, before `Connect`. -/
def initialTransport : TransportState :=
  { connected := false, stdinClosed := false, processKilled := false,
    exitWaiterStarted := false, drainStarted := false }

/-- `client/stdio.go` `StdioTransport.Connect` (success path): a second
call on a connected transport is a no-op; otherwise the pipes are
wired, the process started, and a goroutine that forwards `cmd.Wait`
to `processExit` is launched.  This variant launches no
`handleStderr` goroutine. -/
def stdioConnect (st : TransportState) : TransportState :=
  if st.connected then st
  else { st with connected := true, exitWaiterStarted := true }

/-- `src/unnamed/part_003` `StdioTransport.Connect` (success path):
identical, except that it additionally launches `go t.handleStderr()`,
the only goroutine that ever closes `stderrDone`. -/
def part003Connect (st : TransportState) : TransportState :=
  if st.connected then st
  else { st with connected := true, exitWaiterStarted := true,
                 drainStarted := true }

/-- What one `Disconnect` call returns: the state afterwards, the error
value returned, whether the process was killed, and whether the call
performed the `<-t.stderrDone` join before returning. -/
structure DisconnectReturn where
  state : TransportState
  error : Option String
  waitedDrain : Bool
deriving DecidableEq

/-- `StdioTransport.Disconnect` (textually identical in
`client/stdio.go` and `src/unnamed/part_003`): a disconnected transport
returns immediately; otherwise stdin is closed, then the grace-window
select runs.  An exit signal carrying an error other than
`os.ErrProcessDone` is returned immediately, as is a failed kill; the
remaining paths block on `<-t.stderrDone`.  That receive terminates
only if the drain goroutine was launched (it is the sole closer of
`stderrDone`, and it reaches the close once the now-dead process's
stderr hits end of input); `Option.none` models `Disconnect` blocking
forever on it. -/
def stdioDisconnect (st : TransportState) (sig : ExitSignal) :
    Option DisconnectReturn :=
  if !st.connected then
    some { state := st, error := Option.none, waitedDrain := false }
  else
    let st1 := { st with stdinClosed := true }
    match sig with
    | ExitSignal.exited (some (GoErr.other e)) =>
        some { state := st1,
               error := some ("process exited with error: " ++ e),
               waitedDrain := false }
    | ExitSignal.exited _ =>
        if st1.drainStarted then
          some { state := { st1 with connected := false },
                 error := Option.none, waitedDrain := true }
        else Option.none
    | ExitSignal.timeout false =>
        some { state := st1, error := some "failed to kill process",
               waitedDrain := false }
    | ExitSignal.timeout true =>
        let st2 := { st1 with processKilled := true }
        if st2.drainStarted then
          some { state := { st2 with connected := false },
                 error := Option.none, waitedDrain := true }
        else Option.none

end Transport

open Client Server SSEScan Transport

/-! Helper lemmas about the association-list model of Go maps. -/

theorem lookup_removeKey_self {α β : Type} [DecidableEq α] (k : α)
    (l : List (α × β)) : lookupKey k (removeKey k l) = Option.none := by
  induction l with
  | nil => rfl
  | cons hd tl ih =>
      obtain ⟨k', v⟩ := hd
      by_cases h : k' = k
      · simp [removeKey, h, ih]
      · simp [removeKey, lookupKey, h, ih]

theorem lookup_removeKey_ne {α β : Type} [DecidableEq α] {j k : α}
    (l : List (α × β)) (h : j ≠ k) :
    lookupKey j (removeKey k l) = lookupKey j l := by
  induction l with
  | nil => rfl
  | cons hd tl ih =>
      obtain ⟨a, v⟩ := hd
      show lookupKey j (if a = k then removeKey k tl
            else (a, v) :: removeKey k tl) =
          if a = j then some v else lookupKey j tl
      by_cases hk : a = k
      · rw [if_pos hk, if_neg (fun ha : a = j => h (ha ▸ hk)), ih]
      · rw [if_neg hk]
        by_cases hj : a = j
        · show (if a = j then some v else _) = _
          rw [if_pos hj, if_pos hj]
        · show (if a = j then some v else lookupKey j (removeKey k tl)) = _
          rw [if_neg hj, if_neg hj, ih]

theorem lookup_storeFrame_self (sessions : List (String × Server.Session))
    (sid : String) (resp : Server.Response) :
    lookupKey sid (Server.storeFrame sessions sid resp) =
      (lookupKey sid sessions).map
        (fun sess => { sess with frames := sess.frames ++ [("message", resp)] }) := by
  induction sessions with
  | nil => rfl
  | cons hd tl ih =>
      obtain ⟨k, sess⟩ := hd
      show lookupKey sid ((if k = sid then
            (k, { sess with frames := sess.frames ++ [("message", resp)] })
           else (k, sess)) :: Server.storeFrame tl sid resp) = _
      by_cases h : k = sid
      · rw [if_pos h]
        show (if k = sid then _ else _) = _
        rw [if_pos h]
        show _ = Option.map _ (if k = sid then some sess else lookupKey sid tl)
        rw [if_pos h]
        rfl
      · rw [if_neg h]
        show (if k = sid then _ else lookupKey sid (Server.storeFrame tl sid resp)) = _
        rw [if_neg h, ih]
        show _ = Option.map _ (if k = sid then some sess else lookupKey sid tl)
        rw [if_neg h]

theorem lookup_storeFrame_ne (sessions : List (String × Server.Session))
    {sid other : String} (resp : Server.Response) (h : other ≠ sid) :
    lookupKey other (Server.storeFrame sessions sid resp) =
      lookupKey other sessions := by
  induction sessions with
  | nil => rfl
  | cons hd tl ih =>
      obtain ⟨k, sess⟩ := hd
      show lookupKey other ((if k = sid then
            (k, { sess with frames := sess.frames ++ [("message", resp)] })
           else (k, sess)) :: Server.storeFrame tl sid resp) = _
      by_cases hk : k = sid
      · rw [if_pos hk]
        show (if k = other then _ else lookupKey other (Server.storeFrame tl sid resp)) = _
        rw [if_neg (fun hko : k = other => h (hko ▸ hk)), ih]
        show _ = (if k = other then some sess else lookupKey other tl)
        rw [if_neg (fun hko : k = other => h (hko ▸ hk))]
      · rw [if_neg hk]
        show (if k = other then some sess else lookupKey other (Server.storeFrame tl sid resp)) = _
        by_cases ho : k = other
        · rw [if_pos ho]
          show _ = (if k = other then some sess else lookupKey other tl)
          rw [if_pos ho]
        · rw [if_neg ho, ih]
          show _ = (if k = other then some sess else lookupKey other tl)
          rw [if_neg ho]

/-! Helper lemmas about JSON object field lookup on marshalled
messages. -/

theorem objGetLast_append (xs ys : List (String × Json)) (k : String) :
    objGetLast (xs ++ ys) k =
      match objGetLast ys k with
      | some v => some v
      | Option.none => objGetLast xs k := by
  induction xs with
  | nil => cases h : objGetLast ys k <;> simp [objGetLast, h]
  | cons hd tl ih =>
      obtain ⟨a, v⟩ := hd
      cases h : objGetLast ys k <;> cases h2 : objGetLast tl k <;>
        simp [objGetLast, ih, h, h2]

theorem objGetLast_single_self (k : String) (v : Json) :
    objGetLast [(k, v)] k = some v := by
  show (match (Option.none : Option Json) with
        | some w => some w
        | Option.none => if k = k then some v else Option.none) = some v
  rw [if_pos rfl]

theorem objGetLast_single_ne (a k : String) (v : Json) (h : k ≠ a) :
    objGetLast [(a, v)] k = Option.none := by
  show (match (Option.none : Option Json) with
        | some w => some w
        | Option.none => if a = k then some v else Option.none) = Option.none
  rw [if_neg (fun ha : a = k => h ha.symm)]

theorem objGetLast_idFields_self (r : Client.RequestID) :
    objGetLast (Client.idFields r) "id" =
      match r with
      | Client.RequestID.none => Option.none
      | Client.RequestID.int i => some (Json.num i)
      | Client.RequestID.str s => some (Json.str s) := by
  cases r with
  | none => rfl
  | int i => exact objGetLast_single_self "id" (Json.num i)
  | str s => exact objGetLast_single_self "id" (Json.str s)

theorem objGetLast_idFields_ne (r : Client.RequestID) (k : String)
    (h : k ≠ "id") : objGetLast (Client.idFields r) k = Option.none := by
  cases r with
  | none => rfl
  | int i => exact objGetLast_single_ne "id" k (Json.num i) h
  | str s => exact objGetLast_single_ne "id" k (Json.str s) h

theorem objGetLast_optField_self (name : String) (v : Option Json) :
    objGetLast (Client.optField name v) name = v := by
  cases v with
  | none => rfl
  | some w => exact objGetLast_single_self name w

theorem objGetLast_optField_ne (name : String) (v : Option Json) (k : String)
    (h : k ≠ name) : objGetLast (Client.optField name v) k = Option.none := by
  cases v with
  | none => rfl
  | some w => exact objGetLast_single_ne name k w h

theorem objGetLast_methodFields_self (s : String) :
    objGetLast (Client.methodFields s) "method" =
      if s = "" then Option.none else some (Json.str s) := by
  by_cases hs : s = ""
  · simp [Client.methodFields, hs, objGetLast]
  · simp only [Client.methodFields, if_neg hs]
    exact objGetLast_single_self "method" (Json.str s)

theorem objGetLast_methodFields_ne (s k : String) (h : k ≠ "method") :
    objGetLast (Client.methodFields s) k = Option.none := by
  by_cases hs : s = ""
  · simp [Client.methodFields, hs, objGetLast]
  · simp only [Client.methodFields, if_neg hs]
    exact objGetLast_single_ne "method" k (Json.str s) h

theorem objGetLast_errorFields_self (e : Option Client.JSONRPCError) :
    objGetLast (Client.errorFields e) "error" =
      e.map Client.marshalJSONRPCError := by
  cases e with
  | none => rfl
  | some err => exact objGetLast_single_self "error" (Client.marshalJSONRPCError err)

theorem objGetLast_errorFields_ne (e : Option Client.JSONRPCError) (k : String)
    (h : k ≠ "error") : objGetLast (Client.errorFields e) k = Option.none := by
  cases e with
  | none => rfl
  | some err => exact objGetLast_single_ne "error" k (Client.marshalJSONRPCError err) h

theorem marshal_get_jsonrpc (m : Client.JSONRPCMessage) :
    objGetLast (Client.marshalFields m) "jsonrpc" = some (Json.str m.jsonrpc) := by
  simp only [Client.marshalFields, objGetLast_append,
    objGetLast_errorFields_ne m.error "jsonrpc" (by decide),
    objGetLast_optField_ne "result" m.result "jsonrpc" (by decide),
    objGetLast_optField_ne "params" m.params "jsonrpc" (by decide),
    objGetLast_methodFields_ne m.method "jsonrpc" (by decide),
    objGetLast_idFields_ne m.id "jsonrpc" (by decide)]
  exact objGetLast_single_self "jsonrpc" (Json.str m.jsonrpc)

theorem marshal_get_id (m : Client.JSONRPCMessage) :
    objGetLast (Client.marshalFields m) "id" =
      match m.id with
      | Client.RequestID.none => Option.none
      | Client.RequestID.int i => some (Json.num i)
      | Client.RequestID.str s => some (Json.str s) := by
  simp only [Client.marshalFields, objGetLast_append,
    objGetLast_errorFields_ne m.error "id" (by decide),
    objGetLast_optField_ne "result" m.result "id" (by decide),
    objGetLast_optField_ne "params" m.params "id" (by decide),
    objGetLast_methodFields_ne m.method "id" (by decide),
    objGetLast_idFields_self m.id]
  cases m.id with
  | none => exact objGetLast_single_ne "jsonrpc" "id" (Json.str m.jsonrpc) (by decide)
  | int i => rfl
  | str s => rfl

theorem marshal_get_method (m : Client.JSONRPCMessage) :
    objGetLast (Client.marshalFields m) "method" =
      if m.method = "" then Option.none else some (Json.str m.method) := by
  simp only [Client.marshalFields, objGetLast_append,
    objGetLast_errorFields_ne m.error "method" (by decide),
    objGetLast_optField_ne "result" m.result "method" (by decide),
    objGetLast_optField_ne "params" m.params "method" (by decide),
    objGetLast_methodFields_self m.method,
    objGetLast_idFields_ne m.id "method" (by decide)]
  by_cases hs : m.method = ""
  · simp [hs, objGetLast]
  · simp [hs]

theorem marshal_get_error (m : Client.JSONRPCMessage) :
    objGetLast (Client.marshalFields m) "error" =
      m.error.map Client.marshalJSONRPCError := by
  simp only [Client.marshalFields, objGetLast_append,
    objGetLast_errorFields_self m.error,
    objGetLast_optField_ne "result" m.result "error" (by decide),
    objGetLast_optField_ne "params" m.params "error" (by decide),
    objGetLast_methodFields_ne m.method "error" (by decide),
    objGetLast_idFields_ne m.id "error" (by decide)]
  cases m.error with
  | none => exact objGetLast_single_ne "jsonrpc" "error" (Json.str m.jsonrpc) (by decide)
  | some e => rfl

theorem unmarshalErrorField_marshal (e : Client.JSONRPCError)
    (h : Client.fitsInt64 e.code = true) :
    Client.unmarshalErrorField (Client.marshalJSONRPCError e) =
      Except.ok (some ⟨e.code, e.message, Client.goUnmarshalAnyField
        (objGetLast (Client.optField "data" e.data) "data")⟩) := by
  cases hd : e.data with
  | none =>
      simp [Client.unmarshalErrorField, Client.marshalJSONRPCError, hd,
            Client.optField, objGetLast, Client.goUnmarshalIntField,
            Client.goUnmarshalStringField, Client.goUnmarshalAnyField, h,
            Except.bind, bind]
  | some d =>
      simp [Client.unmarshalErrorField, Client.marshalJSONRPCError, hd,
            Client.optField, objGetLast, Client.goUnmarshalIntField,
            Client.goUnmarshalStringField, Client.goUnmarshalAnyField, h,
            Except.bind, bind]

theorem unmarshalID_not_decodable (v : Json)
    (hv : Client.idDecodable v = false) :
    Client.unmarshalID (some v) =
      Except.error "id must be an integer or string" := by
  cases v with
  | null => simp [Client.idDecodable] at hv
  | bool b => rfl
  | num n =>
      simp only [Client.idDecodable] at hv
      simp [Client.unmarshalID, Client.goUnmarshalInt64,
            Client.goUnmarshalStringOpt, hv]
  | str s => simp [Client.idDecodable] at hv
  | arr xs => rfl
  | obj fs => rfl

/-- Claim C2: an envelope whose identifier is an in-range integer
round-trips through marshal and unmarshal with the identifier still the
same integer, a string identifier stays the same string, and an absent
identifier stays absent (never zero or the empty string) — the decoded
identifier always equals the original; and a present, non-null `id`
field that is neither an integer nor a string makes the id decoder, and
the whole message decode, fail with the `id must be an integer or
string` error. -/
theorem C2_identifier_round_trip (m : Client.JSONRPCMessage) (v : Json) :
    (Client.messageWF m →
        ∃ m2, Client.unmarshalMessage (Client.marshalMessage m) =
            Except.ok m2 ∧ m2.id = m.id) ∧
    (Client.idDecodable v = false →
        Client.unmarshalID (some v) =
          Except.error "id must be an integer or string") ∧
    (Client.idDecodable v = false →
        Client.unmarshalMessage
            (Json.obj [("jsonrpc", Json.str "2.0"), ("id", v)]) =
          Except.error "id must be an integer or string") := by
  refine ⟨fun hwf => ?_, fun hv => unmarshalID_not_decodable v hv, fun hv => ?_⟩
  · obtain ⟨hid, herr⟩ := hwf
    have hj := marshal_get_jsonrpc m
    have hmm := marshal_get_method m
    have hee := marshal_get_error m
    have hii := marshal_get_id m
    simp only [Client.marshalMessage, Client.unmarshalMessage, hj, hmm, hee, hii]
    cases hmid : m.id with
    | none =>
        cases hme : m.error with
        | none =>
            by_cases hs : m.method = "" <;>
              simp [hs, hmid, Client.goUnmarshalStringField, Client.unmarshalID,
                    Except.bind, bind]
        | some e =>
            have hfit := herr e hme
            by_cases hs : m.method = "" <;>
              simp [hs, hmid, Client.goUnmarshalStringField, Client.unmarshalID,
                    unmarshalErrorField_marshal e hfit, Except.bind, bind]
    | int i =>
        have hfit := hid i hmid
        cases hme : m.error with
        | none =>
            by_cases hs : m.method = "" <;>
              simp [hs, hmid, Client.goUnmarshalStringField, Client.unmarshalID,
                    Client.goUnmarshalInt64, hfit, Except.bind, bind]
        | some e =>
            have hfite := herr e hme
            by_cases hs : m.method = "" <;>
              simp [hs, hmid, Client.goUnmarshalStringField, Client.unmarshalID,
                    Client.goUnmarshalInt64, hfit,
                    unmarshalErrorField_marshal e hfite, Except.bind, bind]
    | str s =>
        cases hme : m.error with
        | none =>
            by_cases hs : m.method = "" <;>
              simp [hs, hmid, Client.goUnmarshalStringField, Client.unmarshalID,
                    Client.goUnmarshalInt64, Client.goUnmarshalStringOpt,
                    Except.bind, bind]
        | some e =>
            have hfite := herr e hme
            by_cases hs : m.method = "" <;>
              simp [hs, hmid, Client.goUnmarshalStringField, Client.unmarshalID,
                    Client.goUnmarshalInt64, Client.goUnmarshalStringOpt,
                    unmarshalErrorField_marshal e hfite, Except.bind, bind]
  · have hbad := unmarshalID_not_decodable v hv
    simp [Client.unmarshalMessage, objGetLast, Client.goUnmarshalStringField,
          Client.goUnmarshalAnyField, hbad, Except.bind, bind]

/-- Witness for C2: a message with integer id 7 round-trips to id 7,
and decoding an object whose id is `true` fails with the id-decoder
error. -/
theorem C2_identifier_round_trip_witness :
    (∃ m2, Client.unmarshalMessage (Client.marshalMessage
        ⟨"2.0", Client.RequestID.int 7, "ping", Option.none, Option.none,
         Option.none⟩) = Except.ok m2 ∧
      m2.id = Client.RequestID.int 7) ∧
    Client.unmarshalMessage
        (Json.obj [("jsonrpc", Json.str "2.0"), ("id", Json.bool true)]) =
      Except.error "id must be an integer or string" := by
  have h := C2_identifier_round_trip
    ⟨"2.0", Client.RequestID.int 7, "ping", Option.none, Option.none,
     Option.none⟩ (Json.bool true)
  exact ⟨h.1 ⟨fun i hi => by cases hi; decide, fun e he => by cases he⟩,
         h.2.2 rfl⟩

/-- Claim C1: a response carrying identifier `i` completes exactly the
pending call registered under `i` — its channel receives the result
payload on success or the nil failure signal on an error response, the
entry for `i` is deleted, and every other entry is untouched — and a
response whose identifier has no pending entry has no effect; this
holds for the stdio reader loop and for the SSE `message` event handler
alike, for an arbitrary pending-call table and hence regardless of
arrival order. -/
theorem C1_response_correlation (tbl : List (Int × Nat))
    (r : Client.WireResponse) (ch : Nat) :
    (lookupKey r.id tbl = some ch →
        Client.readResponsesStep tbl (some r) =
          (removeKey r.id tbl, [(ch, Client.responsePayload r)]) ∧
        lookupKey r.id (removeKey r.id tbl) = Option.none ∧
        ∀ j, j ≠ r.id → lookupKey j (removeKey r.id tbl) = lookupKey j tbl) ∧
    (lookupKey r.id tbl = Option.none →
        Client.readResponsesStep tbl (some r) = (tbl, [])) ∧
    (∀ e, r.error = some e → Client.responsePayload r = Option.none) ∧
    (r.error = Option.none → Client.responsePayload r = some r.result) ∧
    (∀ c : Client.SSEClientState, lookupKey r.id c.responses = some ch →
        Client.handleSSEEvent c (Client.ClientEvent.message (some r)) =
          ({ c with responses := removeKey r.id c.responses },
           [(ch, Client.responsePayload r)])) ∧
    (∀ c : Client.SSEClientState, lookupKey r.id c.responses = Option.none →
        Client.handleSSEEvent c (Client.ClientEvent.message (some r)) = (c, [])) := by
  refine ⟨fun h => ⟨?_, lookup_removeKey_self _ _, fun j hj => lookup_removeKey_ne _ hj⟩,
          fun h => ?_, fun e he => ?_, fun he => ?_,
          fun c h => ?_, fun c h => ?_⟩
  · simp [Client.readResponsesStep, h]
  · simp [Client.readResponsesStep, h]
  · simp [Client.responsePayload, he]
  · simp [Client.responsePayload, he]
  · simp [Client.handleSSEEvent, h]
  · simp [Client.handleSSEEvent, h]

/-- Witness for C1 at a concrete table and response. -/
theorem C1_response_correlation_witness :
    Client.readResponsesStep [(1, 5), (2, 7)]
        (some { id := 1, result := Json.null, error := Option.none }) =
      ([(2, 7)], [(5, some Json.null)]) :=
  ((C1_response_correlation [(1, 5), (2, 7)]
      { id := 1, result := Json.null, error := Option.none } 5).1 (by rfl)).1

/-- Claim C4: cancelling the context of a pending call returns the
context's error and removes exactly that call's entry from the
pending-call table (other entries untouched), and a reply arriving
later under the same identifier finds no entry and is silently dropped
by the reader — no table change and no channel send — in both the stdio
and the SSE client. -/
theorem C4_cancellation_removes_pending (c : Client.StdioClientState)
    (s : Client.SSEClientState) (id : Int) (r : Client.WireResponse) :
    (Client.stdioCancelPending c id).2 = "context canceled" ∧
    lookupKey id (Client.stdioCancelPending c id).1.response = Option.none ∧
    (∀ j, j ≠ id →
        lookupKey j (Client.stdioCancelPending c id).1.response =
          lookupKey j c.response) ∧
    (r.id = id →
        Client.readResponsesStep (Client.stdioCancelPending c id).1.response
          (some r) = ((Client.stdioCancelPending c id).1.response, [])) ∧
    (Client.sseCancelPending s id).2 = "context canceled" ∧
    lookupKey id (Client.sseCancelPending s id).1.responses = Option.none ∧
    (∀ j, j ≠ id →
        lookupKey j (Client.sseCancelPending s id).1.responses =
          lookupKey j s.responses) ∧
    (r.id = id →
        Client.handleSSEEvent (Client.sseCancelPending s id).1
          (Client.ClientEvent.message (some r)) =
          ((Client.sseCancelPending s id).1, [])) := by
  refine ⟨rfl, lookup_removeKey_self _ _,
          fun j hj => lookup_removeKey_ne _ hj, fun hid => ?_,
          rfl, lookup_removeKey_self _ _,
          fun j hj => lookup_removeKey_ne _ hj, fun hid => ?_⟩
  · subst hid
    simp [Client.readResponsesStep, Client.stdioCancelPending,
          lookup_removeKey_self]
  · subst hid
    simp [Client.handleSSEEvent, Client.sseCancelPending,
          lookup_removeKey_self]

/-- Witness for C4 at a concrete state: cancelling id 1 empties the
table and a late reply for id 1 is dropped. -/
theorem C4_cancellation_removes_pending_witness :
    lookupKey 1 (Client.stdioCancelPending
        { initialized := true, requestID := 1, response := [(1, 5)] } 1).1.response =
      Option.none ∧
    Client.handleSSEEvent (Client.sseCancelPending
        { baseHost := "h", endpoint := Option.none, initialized := true,
          requestID := 1, responses := [(1, 5)] } 1).1
        (Client.ClientEvent.message
          (some { id := 1, result := Json.null, error := Option.none })) =
      ((Client.sseCancelPending
        { baseHost := "h", endpoint := Option.none, initialized := true,
          requestID := 1, responses := [(1, 5)] } 1).1, []) := by
  have h := C4_cancellation_removes_pending
    { initialized := true, requestID := 1, response := [(1, 5)] }
    { baseHost := "h", endpoint := Option.none, initialized := true,
      requestID := 1, responses := [(1, 5)] } 1
    { id := 1, result := Json.null, error := Option.none }
  exact ⟨h.2.1, h.2.2.2.2.2.2.2 rfl⟩

/-- Claim C3 (code bug in `src/unnamed/part_002`): before
initialization, `client/stdio.go`'s `sendRequest` blocks every method
except `initialize` locally with no id allocation, no pending entry and
no write, and lets `initialize` itself proceed to the wire; but the
`src/unnamed/part_002` variant's guard compares against the string
`initialized`, so there the `initialize` request itself is rejected
with `client not initialized` and never reaches the wire — its own
`Initialize` flow can never succeed. -/
theorem C3_uninitialized_guard (c : Client.StdioClientState) (ch : Nat)
    (method : String) :
    (c.initialized = false → method ≠ "initialize" →
        Client.stdioSendRequestStart c ch method =
          (c, { error := some "not initialized", idAllocated := false,
                entryCreated := false, wroteBytes := false })) ∧
    (c.initialized = false →
        (Client.stdioSendRequestStart c ch "initialize").2.wroteBytes = true) ∧
    (c.initialized = false →
        Client.part002SendRequestStart c ch "initialize" =
          (c, { error := some "client not initialized", idAllocated := false,
                entryCreated := false, wroteBytes := false })) := by
  refine ⟨fun hinit hm => ?_, fun hinit => ?_, fun hinit => ?_⟩
  · simp [Client.stdioSendRequestStart, hinit, hm]
  · simp [Client.stdioSendRequestStart, hinit]
  · simp [Client.part002SendRequestStart, hinit]

/-- Witness for C3 at the fresh client state: the main client writes
the `initialize` request, the `part_002` variant rejects it. -/
theorem C3_uninitialized_guard_witness :
    (Client.stdioSendRequestStart
        { initialized := false, requestID := 0, response := [] } 0
        "initialize").2.wroteBytes = true ∧
    Client.part002SendRequestStart
        { initialized := false, requestID := 0, response := [] } 0
        "initialize" =
      ({ initialized := false, requestID := 0, response := [] },
       { error := some "client not initialized", idAllocated := false,
         entryCreated := false, wroteBytes := false }) := by
  have h := C3_uninitialized_guard
    { initialized := false, requestID := 0, response := [] } 0 "ping"
  exact ⟨h.2.1 rfl, h.2.2 rfl⟩

/-- Claim C9 (code bug in `client/stdio.go`): `Disconnect` closes
stdin, waits at most the grace window, kills the child on timeout —
but in the `client/stdio.go` variant `Connect` never launches the
`handleStderr` drain goroutine, the only closer of `stderrDone`, so a
`Disconnect` that reaches the `<-t.stderrDone` join (for example after
a clean child exit, or after a successful kill of a child that ignored
stdin closure) blocks forever instead of returning; the
`src/unnamed/part_003` variant, whose `Connect` does launch the drain,
returns on those same paths after joining the drain. -/
theorem C9_disconnect_stuck_on_drain :
    Transport.stdioDisconnect (Transport.stdioConnect Transport.initialTransport)
        (Transport.ExitSignal.exited Option.none) = Option.none ∧
    Transport.stdioDisconnect (Transport.stdioConnect Transport.initialTransport)
        (Transport.ExitSignal.timeout true) = Option.none ∧
    Transport.stdioDisconnect (Transport.part003Connect Transport.initialTransport)
        (Transport.ExitSignal.exited Option.none) =
      some { state := { connected := false, stdinClosed := true,
                        processKilled := false, exitWaiterStarted := true,
                        drainStarted := true },
             error := Option.none, waitedDrain := true } ∧
    Transport.stdioDisconnect (Transport.part003Connect Transport.initialTransport)
        (Transport.ExitSignal.timeout true) =
      some { state := { connected := false, stdinClosed := true,
                        processKilled := true, exitWaiterStarted := true,
                        drainStarted := true },
             error := Option.none, waitedDrain := true } := by
  refine ⟨rfl, rfl, rfl, rfl⟩

/-- Claim C7: a POST to the SSE server's message endpoint with a
missing or unregistered `sessionId` gets a structured JSON-RPC error
response with code `-32602`, the dispatcher is not invoked, and the
session registry — including every registered session's frames and
liveness state — is unchanged. -/
theorem C7_invalid_session_rejected (sessions : List (String × Server.Session))
    (body : Except String Server.Request)
    (dispatch : Server.Request → Server.Response) :
    Server.handleMessagePost sessions "POST" "" body dispatch =
      { sessions := sessions, status := 400,
        body := some (Server.errorResponse Option.none (-32602) "Missing sessionId"),
        dispatched := false } ∧
    ∀ sid, sid ≠ "" → lookupKey sid sessions = Option.none →
      Server.handleMessagePost sessions "POST" sid body dispatch =
        { sessions := sessions, status := 400,
          body := some (Server.errorResponse Option.none (-32602) "Invalid session ID"),
          dispatched := false } := by
  refine ⟨by simp [Server.handleMessagePost], fun sid hne hmiss => ?_⟩
  simp [Server.handleMessagePost, hne, hmiss]

/-- Witness for C7 at a concrete registry with one live session. -/
theorem C7_invalid_session_rejected_witness :
    Server.handleMessagePost [("a", { frames := [], doneClosed := false })]
        "POST" "b"
        (Except.ok { jsonrpc := "2.0", id := Option.none, method := "ping",
                     params := Option.none })
        (fun _ => Server.errorResponse Option.none 0 "") =
      { sessions := [("a", { frames := [], doneClosed := false })], status := 400,
        body := some (Server.errorResponse Option.none (-32602) "Invalid session ID"),
        dispatched := false } :=
  (C7_invalid_session_rejected [("a", { frames := [], doneClosed := false })]
      (Except.ok { jsonrpc := "2.0", id := Option.none, method := "ping",
                   params := Option.none })
      (fun _ => Server.errorResponse Option.none 0 "")).2
    "b" (by decide) (by rfl)

/-- Claim C6: a POST naming a registered session with a parseable body
delivers the dispatcher's response twice — appended to the owning
session's event stream as an `event: message` frame, with every other
session's state untouched, and encoded as the synchronous HTTP body
under status `202 Accepted`. -/
theorem C6_dual_delivery (sessions : List (String × Server.Session))
    (sid : String) (sess : Server.Session) (req : Server.Request)
    (dispatch : Server.Request → Server.Response) :
    sid ≠ "" → lookupKey sid sessions = some sess →
    (Server.handleMessagePost sessions "POST" sid (Except.ok req) dispatch).status
        = 202 ∧
    (Server.handleMessagePost sessions "POST" sid (Except.ok req) dispatch).body
        = some (dispatch req) ∧
    (Server.handleMessagePost sessions "POST" sid (Except.ok req) dispatch).dispatched
        = true ∧
    lookupKey sid
        (Server.handleMessagePost sessions "POST" sid (Except.ok req) dispatch).sessions
      = some { sess with frames := sess.frames ++ [("message", dispatch req)] } ∧
    ∀ other, other ≠ sid →
      lookupKey other
          (Server.handleMessagePost sessions "POST" sid (Except.ok req) dispatch).sessions
        = lookupKey other sessions := by
  intro hne hfound
  have hpost : Server.handleMessagePost sessions "POST" sid (Except.ok req) dispatch =
      { sessions := Server.storeFrame sessions sid (dispatch req), status := 202,
        body := some (dispatch req), dispatched := true } := by
    simp [Server.handleMessagePost, hne, hfound]
  refine ⟨by rw [hpost], by rw [hpost], by rw [hpost], ?_, fun other ho => ?_⟩
  · rw [hpost]
    show lookupKey sid (Server.storeFrame sessions sid (dispatch req)) = _
    rw [lookup_storeFrame_self, hfound]
    rfl
  · rw [hpost]
    show lookupKey other (Server.storeFrame sessions sid (dispatch req)) = _
    rw [lookup_storeFrame_ne sessions (dispatch req) ho]

/-- Witness for C6 with two registered sessions: the owner receives the
frame, the other session is untouched. -/
theorem C6_dual_delivery_witness :
    (Server.handleMessagePost
        [("a", { frames := [], doneClosed := false }),
         ("b", { frames := [], doneClosed := false })] "POST" "a"
        (Except.ok { jsonrpc := "2.0", id := Option.none, method := "ping",
                     params := Option.none })
        (fun _ => Server.errorResponse Option.none 0 "ok")).status = 202 ∧
    lookupKey "b"
        (Server.handleMessagePost
          [("a", { frames := [], doneClosed := false }),
           ("b", { frames := [], doneClosed := false })] "POST" "a"
          (Except.ok { jsonrpc := "2.0", id := Option.none, method := "ping",
                       params := Option.none })
          (fun _ => Server.errorResponse Option.none 0 "ok")).sessions =
      lookupKey "b"
        [("a", { frames := [], doneClosed := false }),
         ("b", { frames := [], doneClosed := false })] := by
  have h := C6_dual_delivery
    [("a", { frames := [], doneClosed := false }),
     ("b", { frames := [], doneClosed := false })] "a"
    { frames := [], doneClosed := false }
    { jsonrpc := "2.0", id := Option.none, method := "ping",
      params := Option.none }
    (fun _ => Server.errorResponse Option.none 0 "ok")
    (by decide) (by rfl)
  exact ⟨h.1, h.2.2.2.2 "b" (by decide)⟩

/-- Claim C5: the stdio server's per-line handler writes a `-32700`
response with JSON-null id for an unparsable line, `-32600` for a
parsed request whose protocol tag is not `2.0`, `-32603` when the
dispatcher fails, and otherwise a success response echoing the
request's id with the dispatcher's result and no error field;
marshalling an error response with nil id emits a literal `null` id
field. -/
theorem C5_stdio_server_responses (e : String) (req : Server.Request)
    (dispatch : String → Option Json → Except String (Option Json)) :
    Server.handleMessage (Except.error e) dispatch =
      (Server.errorResponse Option.none (-32700) "Parse error",
       some ("failed to parse JSON-RPC request: " ++ e)) ∧
    (req.jsonrpc ≠ "2.0" →
        (Server.handleMessage (Except.ok req) dispatch).1 =
          Server.errorResponse Option.none (-32600) "Invalid version") ∧
    (∀ msg, req.jsonrpc = "2.0" → dispatch req.method req.params = Except.error msg →
        (Server.handleMessage (Except.ok req) dispatch).1 =
          Server.errorResponse Option.none (-32603) msg) ∧
    (∀ result, req.jsonrpc = "2.0" →
        dispatch req.method req.params = Except.ok result →
        (Server.handleMessage (Except.ok req) dispatch).1 =
          { jsonrpc := "2.0", id := req.id, result := result,
            error := Option.none }) ∧
    (∀ code msg, Server.marshalResponse (Server.errorResponse Option.none code msg) =
        Json.obj [("jsonrpc", Json.str "2.0"), ("id", Json.null),
                  ("error", Json.obj [("code", Json.num code),
                                      ("message", Json.str msg)])]) := by
  refine ⟨rfl, fun hv => ?_, fun msg hv hd => ?_, fun result hv hd => ?_,
          fun code msg => rfl⟩
  · simp [Server.handleMessage, hv]
  · simp [Server.handleMessage, hv, hd]
  · simp [Server.handleMessage, hv, hd]

/-- Witness for C5: the four branches evaluated at concrete inputs
against a dispatcher that fails on method `boom` and otherwise echoes
nothing. -/
theorem C5_stdio_server_responses_witness :
    (Server.handleMessage (Except.ok
        { jsonrpc := "2.0", id := some (Json.num 1), method := "ping",
          params := Option.none })
        (fun m _ => if m = "boom" then Except.error "kaput"
                    else Except.ok Option.none)).1 =
      { jsonrpc := "2.0", id := some (Json.num 1), result := Option.none,
        error := Option.none } ∧
    (Server.handleMessage (Except.ok
        { jsonrpc := "1.0", id := Option.none, method := "ping",
          params := Option.none })
        (fun m _ => if m = "boom" then Except.error "kaput"
                    else Except.ok Option.none)).1 =
      Server.errorResponse Option.none (-32600) "Invalid version" ∧
    (Server.handleMessage (Except.ok
        { jsonrpc := "2.0", id := Option.none, method := "boom",
          params := Option.none })
        (fun m _ => if m = "boom" then Except.error "kaput"
                    else Except.ok Option.none)).1 =
      Server.errorResponse Option.none (-32603) "kaput" := by
  refine ⟨?_, ?_, ?_⟩
  · exact (C5_stdio_server_responses ""
      ⟨"2.0", some (Json.num 1), "ping", Option.none⟩
      (fun m _ => if m = "boom" then Except.error "kaput"
                  else Except.ok Option.none)).2.2.2.1
      Option.none rfl (by rfl)
  · exact (C5_stdio_server_responses ""
      ⟨"1.0", Option.none, "ping", Option.none⟩
      (fun m _ => if m = "boom" then Except.error "kaput"
                  else Except.ok Option.none)).2.1 (by decide)
  · exact (C5_stdio_server_responses ""
      ⟨"2.0", Option.none, "boom", Option.none⟩
      (fun m _ => if m = "boom" then Except.error "kaput"
                  else Except.ok Option.none)).2.2.1 "kaput" rfl (by rfl)

/-- Counterexample to claim C8 as stated: a comment line alone makes
the accumulator emittable — after the input consisting of the comment
`:c` and a blank line (and likewise after the comment alone at end of
input) the scanner emits one empty event, whereas under the claimed
framing rules a comment contributes nothing and no event would be
emitted. -/
theorem C8_counterexample :
    SSEScan.scanAll [":c", ""] = [{ type := "", data := "" }] ∧
    SSEScan.scanAll [":c"] = [{ type := "", data := "" }] := by
  constructor <;> rfl

/-- Claim C8 (amended): the scanner's framing rules, as implemented: a
blank line emits the accumulated event and resets the accumulator iff
at least one non-blank line of any kind — field, comment, or unknown —
was seen since the last emission; `event:` lines overwrite the type;
`data:` lines append to the data with a newline joining; lines
beginning `:` contribute no field but do count as a seen line (so a
blank line after only comments emits an empty event); any other line
containing a colon is split at the first colon and its trimmed field
name gets the same event/data handling, unknown fields contributing
nothing; and end of input emits the accumulator iff a line was seen. -/
theorem C8_amended_framing (line : String) (rest : List String)
    (cur : SSEScan.SSEEvent) (b : Bool) :
    (SSEScan.scanEvents ("" :: rest) cur true =
        cur :: SSEScan.scanEvents rest SSEScan.emptyEvent false) ∧
    (SSEScan.scanEvents ("" :: rest) cur false =
        SSEScan.scanEvents rest cur false) ∧
    (line ≠ "" → SSEScan.strStarts line "event:" = true →
        SSEScan.scanEvents (line :: rest) cur b =
          SSEScan.scanEvents rest
            { cur with type := SSEScan.strTrim (SSEScan.strDrop line 6) } true) ∧
    (line ≠ "" → SSEScan.strStarts line "event:" = false →
        SSEScan.strStarts line "data:" = true →
        SSEScan.scanEvents (line :: rest) cur b =
          SSEScan.scanEvents rest
            { cur with data := SSEScan.appendData cur.data (SSEScan.strTrim (SSEScan.strDrop line 5)) } true) ∧
    (line ≠ "" → SSEScan.strStarts line "event:" = false →
        SSEScan.strStarts line "data:" = false →
        SSEScan.strStarts line ":" = true →
        SSEScan.scanEvents (line :: rest) cur b =
          SSEScan.scanEvents rest cur true) ∧
    (line ≠ "" → SSEScan.strStarts line "event:" = false →
        SSEScan.strStarts line "data:" = false →
        SSEScan.strStarts line ":" = false →
        SSEScan.containsColon line = true →
        SSEScan.strTrim (SSEScan.splitN2 line).1 = "event" →
        SSEScan.scanEvents (line :: rest) cur b =
          SSEScan.scanEvents rest
            { cur with type := SSEScan.strTrim (SSEScan.splitN2 line).2 } true) ∧
    (line ≠ "" → SSEScan.strStarts line "event:" = false →
        SSEScan.strStarts line "data:" = false →
        SSEScan.strStarts line ":" = false →
        SSEScan.containsColon line = true →
        SSEScan.strTrim (SSEScan.splitN2 line).1 = "data" →
        SSEScan.scanEvents (line :: rest) cur b =
          SSEScan.scanEvents rest
            { cur with data := SSEScan.appendData cur.data (SSEScan.strTrim (SSEScan.splitN2 line).2) } true) ∧
    (line ≠ "" → SSEScan.strStarts line "event:" = false →
        SSEScan.strStarts line "data:" = false →
        SSEScan.strStarts line ":" = false →
        SSEScan.containsColon line = true →
        SSEScan.strTrim (SSEScan.splitN2 line).1 ≠ "event" →
        SSEScan.strTrim (SSEScan.splitN2 line).1 ≠ "data" →
        SSEScan.scanEvents (line :: rest) cur b =
          SSEScan.scanEvents rest cur true) ∧
    (line ≠ "" → SSEScan.strStarts line "event:" = false →
        SSEScan.strStarts line "data:" = false →
        SSEScan.strStarts line ":" = false →
        SSEScan.containsColon line = false →
        SSEScan.scanEvents (line :: rest) cur b =
          SSEScan.scanEvents rest cur true) ∧
    (SSEScan.scanEvents [] cur true = [cur]) ∧
    (SSEScan.scanEvents [] cur false = []) := by
  refine ⟨?_, ?_, ?_, ?_, ?_, ?_, ?_, ?_, ?_, rfl, rfl⟩
  · simp [SSEScan.scanEvents]
  · simp [SSEScan.scanEvents]
  · intro h1 h2
    simp [SSEScan.scanEvents, h1, h2]
  · intro h1 h2 h3
    simp [SSEScan.scanEvents, h1, h2, h3]
  · intro h1 h2 h3 h4
    simp [SSEScan.scanEvents, h1, h2, h3, h4]
  · intro h1 h2 h3 h4 h5 h6
    simp [SSEScan.scanEvents, h1, h2, h3, h4, h5, h6]
  · intro h1 h2 h3 h4 h5 h6
    simp [SSEScan.scanEvents, h1, h2, h3, h4, h5, h6]
  · intro h1 h2 h3 h4 h5 h6 h7
    simp [SSEScan.scanEvents, h1, h2, h3, h4, h5, h6, h7]
  · intro h1 h2 h3 h4 h5
    simp [SSEScan.scanEvents, h1, h2, h3, h4, h5]

/-- Witness for the amended C8 at concrete lines: a `data:` line
appends, a comment line counts as seen, and an unknown field line
contributes nothing but counts as seen. -/
theorem C8_amended_framing_witness :
    SSEScan.scanEvents ["data: hi"] SSEScan.emptyEvent false =
      SSEScan.scanEvents [] { type := "", data := "hi" } true ∧
    SSEScan.scanEvents [":note"] SSEScan.emptyEvent false =
      SSEScan.scanEvents [] SSEScan.emptyEvent true ∧
    SSEScan.scanEvents ["retry: 5"] SSEScan.emptyEvent false =
      SSEScan.scanEvents [] SSEScan.emptyEvent true := by
  refine ⟨?_, ?_, ?_⟩
  · exact (C8_amended_framing "data: hi" [] SSEScan.emptyEvent false).2.2.2.1
      (by decide) (by rfl) (by rfl)
  · exact (C8_amended_framing ":note" [] SSEScan.emptyEvent false).2.2.2.2.1
      (by decide) (by rfl) (by rfl) (by rfl)
  · exact (C8_amended_framing "retry: 5" [] SSEScan.emptyEvent
      false).2.2.2.2.2.2.2.1 (by decide) (by rfl) (by rfl) (by rfl) (by rfl)
      (by decide) (by decide)

theorem handleSSEEvent_preserves (c : Client.SSEClientState)
    (e : Client.ClientEvent) :
    (Client.handleSSEEvent c e).1.baseHost = c.baseHost ∧
    (Client.endpointInv c → Client.endpointInv (Client.handleSSEEvent c e).1) := by
  cases e with
  | endpoint parsed =>
      cases parsed with
      | none => exact ⟨rfl, fun h => h⟩
      | some u =>
          by_cases hu : u.host = c.baseHost
          · have hne : ¬u.host ≠ c.baseHost := fun hk => hk hu
            constructor
            · simp [Client.handleSSEEvent, hne]
            · intro _ w hw
              simp [Client.handleSSEEvent, hne] at hw ⊢
              rw [← hw]
              exact hu
          · constructor
            · simp [Client.handleSSEEvent, hu]
            · intro h w hw
              simp [Client.handleSSEEvent, hu] at hw ⊢
              exact h w hw
  | message parsed =>
      cases parsed with
      | none => exact ⟨rfl, fun h => h⟩
      | some r =>
          cases hl : lookupKey r.id c.responses with
          | none =>
              constructor
              · simp [Client.handleSSEEvent, hl]
              · intro h w hw
                simp [Client.handleSSEEvent, hl] at hw ⊢
                exact h w hw
          | some ch =>
              constructor
              · simp [Client.handleSSEEvent, hl]
              · intro h w hw
                simp [Client.handleSSEEvent, hl] at hw ⊢
                exact h w hw
  | other ty => exact ⟨rfl, fun h => h⟩

theorem runEvents_inv (host : String) (events : List Client.ClientEvent) :
    ∀ c : Client.SSEClientState, c.baseHost = host → Client.endpointInv c →
      (Client.runEvents c events).baseHost = host ∧
      Client.endpointInv (Client.runEvents c events) := by
  induction events with
  | nil => exact fun c hb hi => ⟨hb, hi⟩
  | cons e es ih =>
      intro c hb hi
      have hp := handleSSEEvent_preserves c e
      exact ih _ (hp.1.trans hb) (hp.2 hi)

/-- Counterexample to claim C10 as stated: with a nil endpoint and the
handshake not yet done, `sendRequest` for method `ping` fails with
`client not initialized` — a different error from the claimed
`endpoint not received` (the initialization guard runs first). -/
theorem C10_counterexample :
    Client.sseSendRequestStart (Client.initialSSEClient "h") 0 "ping" =
      Client.SSESendOutcome.localError "client not initialized" ∧
    Client.SSESendOutcome.localError "client not initialized" ≠
      Client.SSESendOutcome.localError "endpoint not received" :=
  ⟨rfl, by decide⟩

/-- Claim C10 (amended): after construction, whenever the stored
endpoint is non-nil its host equals the connection origin host — an
`endpoint` event whose data fails to parse, or whose host differs from
the origin, leaves the stored endpoint unchanged — and while the
endpoint is nil every `sendRequest` fails locally before posting
anywhere: with `endpoint not received` when it passes the
initialization guard (the client is initialized or the method is
`initialize`), and with `client not initialized` otherwise. -/
theorem C10_endpoint_invariant (host : String)
    (events : List Client.ClientEvent) (c : Client.SSEClientState)
    (u : Client.URL) (ch : Nat) (method : String) :
    (Client.endpointInv (Client.runEvents (Client.initialSSEClient host) events)) ∧
    (Client.handleSSEEvent c (Client.ClientEvent.endpoint Option.none) = (c, [])) ∧
    (u.host ≠ c.baseHost →
        Client.handleSSEEvent c (Client.ClientEvent.endpoint (some u)) = (c, [])) ∧
    (c.endpoint = Option.none → (c.initialized = true ∨ method = "initialize") →
        Client.sseSendRequestStart c ch method =
          Client.SSESendOutcome.localError "endpoint not received") ∧
    (c.endpoint = Option.none → c.initialized = false → method ≠ "initialize" →
        Client.sseSendRequestStart c ch method =
          Client.SSESendOutcome.localError "client not initialized") := by
  refine ⟨?_, rfl, fun hu => ?_, fun hep hg => ?_, fun hep hinit hm => ?_⟩
  · exact (runEvents_inv host events (Client.initialSSEClient host) rfl
      (fun w hw => by cases hw)).2
  · simp [Client.handleSSEEvent, hu]
  · rcases hg with hinit | hm
    · simp [Client.sseSendRequestStart, hinit, hep]
    · simp [Client.sseSendRequestStart, hm, hep]
  · simp [Client.sseSendRequestStart, hinit, hm, hep]

/-- Witness for the amended C10: the `initialize` method on a fresh
client (nil endpoint) fails with `endpoint not received`, and an
origin-mismatched endpoint event is ignored. -/
theorem C10_endpoint_invariant_witness :
    Client.sseSendRequestStart (Client.initialSSEClient "h") 0 "initialize" =
      Client.SSESendOutcome.localError "endpoint not received" ∧
    Client.handleSSEEvent (Client.initialSSEClient "h")
        (Client.ClientEvent.endpoint (some ⟨"evil", ""⟩)) =
      (Client.initialSSEClient "h", []) := by
  have h := C10_endpoint_invariant "h" [] (Client.initialSSEClient "h")
    ⟨"evil", ""⟩ 0 "initialize"
  exact ⟨h.2.2.2.1 rfl (Or.inr rfl), h.2.2.1 (by decide)⟩
